import Mathlib

/-! Shallow embedding of the HA-RohlikCZ dashboard cards:
`RohlikczShoppingListCard` (src/unnamed/part_000) and `RohlikczCartCard`
(src/custom_components/rohlikcz2/www/rohlikcz-cart-card.js).

Remote service calls (`hass.callService`) and the catalog image fetch are
modelled by outcome oracles passed to each operation; each operation returns
its final state together with the ordered trace of remote-call events it
issued and the list of state snapshots at which `_render()` was invoked.
JS `undefined`-able fields are `Option`s; JS `||` / `??` / truthiness are
modelled by the explicit helpers below. -/

/-- JS `a || b` where `a` is a possibly-undefined string: falls back to `b`
when `a` is `undefined` or the empty string. -/
def jsOrStr (a : Option String) (b : String) : String :=
  match a with
  | some s => if s = "" then b else s
  | none => b

/-- JS template-literal interpolation of a possibly-undefined string:
`undefined` prints as the text "undefined". -/
def jsStr (a : Option String) : String := a.getD "undefined"

/-- JS template-literal interpolation of a possibly-undefined numeric id. -/
def jsNat (a : Option Nat) : String :=
  match a with
  | some n => toString n
  | none => "undefined"

/-- JS truthiness of a possibly-undefined string (`!x` negated):
`undefined` and `""` are falsy. -/
def truthyStr : Option String → Bool
  | some s => s != ""
  | none => false

/-- Characters the JS `String.prototype.trim` of the source's whitespace
handling removes (the forms relevant to this code base). -/
def isJsWs (c : Char) : Bool :=
  c == ' ' || c == '\t' || c == '\n' || c == '\r'

/-- JS `String.prototype.trim` on a character list. -/
def jsTrim (l : List Char) : List Char :=
  (((l.dropWhile isJsWs).reverse).dropWhile isJsWs).reverse

/-- Character list of a string literal. -/
def lit (s : String) : List Char := s.toList

/-! ## Service-call payloads

The `hass.callService(domain, service, data, undefined, true, true)`
invocations of both cards, with their exact payload fields. -/

/-- The `data` object of each `callService` invocation in the source. -/
inductive SvcData where
  | getShoppingList (entryId : Option String) (listId : Option String)
  | addToCart (entryId : Option String) (productId : Option Nat) (quantity : Nat)
  | getCartContent (entryId : Option String)
  | deleteFromCart (entryId : Option String) (orderFieldId : String)
  | searchProduct (entryId : Option String) (productName : String) (limit : Nat)
deriving DecidableEq, Repr

/-- One `hass.callService` invocation. -/
structure SvcCall where
  domain : String
  service : String
  data : SvcData
deriving DecidableEq, Repr

/-! ## Shopping-list card: data model -/

/-- `product.price` in the list card: either a scalar (printed directly)
or an object with `full` and `currency` fields (source lines 380-384).
Scalar numeric prices are modelled by integers. -/
inductive PriceVal where
  | scalar (n : Int)
  | obj (full : Option String) (currency : Option String)
deriving DecidableEq, Repr

/-- A backend product as the list card reads it (fields accessed in
`_addAllToCart`, `_addItemToCart` and `_renderBody`). -/
structure Product where
  productId : Option Nat
  id : Option Nat
  productName : Option String
  name : Option String
  brand : Option String
  textualAmount : Option String
  amount : Option String
  price : Option PriceVal
deriving DecidableEq, Repr

/-- One entry of `this._addResults` (source lines 81-83): outcome keyed by
display name; `error` carries `e.message` on failure only. -/
structure AddResult where
  name : Option String
  ok : Bool
  error : Option String
deriving DecidableEq, Repr

/-- The raw config object handed to the list card's `setConfig`. -/
structure ListConfig where
  config_entry_id : Option String
  shopping_list_id : Option String
  title : Option String
  domain : Option String
deriving DecidableEq, Repr

/-- The mutable fields of a `RohlikczShoppingListCard` instance. -/
structure ListState where
  items : List Product
  listName : String
  loading : Bool
  error : Option String
  addingAll : Bool
  addResults : List AddResult
  loaded : Bool
  config : Option ListConfig
  domain : String
deriving DecidableEq, Repr

/-- Constructor state of the list card (source lines 2-11). -/
def initListState : ListState :=
  { items := [], listName := "", loading := false, error := none,
    addingAll := false, addResults := [], loaded := false,
    config := none, domain := "rohlikcz2" }

/-- Events observable from a list-card operation: the start and the
completion of each remote service call.  An `Except` outcome carries the
thrown error's (possibly undefined) `message` on failure. -/
inductive LEv where
  | callStart (c : SvcCall)
  | callEnd (c : SvcCall) (outcome : Except (Option String) Unit)
deriving Repr

/-- Result of running a list-card handler: final state, ordered event
trace, and the state snapshots at each `_render()` call. -/
structure ListRun where
  final : ListState
  events : List LEv
  renders : List ListState
deriving Repr

/-- `config_entry_id` of the currently stored config (`this._config`). -/
def listEntryId (s : ListState) : Option String :=
  s.config.bind fun c => c.config_entry_id

/-- `shopping_list_id` of the currently stored config. -/
def listListId (s : ListState) : Option String :=
  s.config.bind fun c => c.shopping_list_id

/-! ## Shopping-list card: `setConfig` (source lines 13-23) -/

/-- Result of a `setConfig` call: the thrown error or the new state, plus
render snapshots and service-call events (always none in `setConfig`,
whose body contains no `callService`). -/
structure SetConfigRun (σ : Type) where
  result : Except String σ
  renders : List σ
  events : List LEv
deriving Repr

/-- `RohlikczShoppingListCard.setConfig` (source lines 13-23): throws when
`config.config_entry_id` or `config.shopping_list_id` is JS-falsy, before
any render; otherwise stores the config, derives the domain and renders
once.  No fetch is issued here (fetching happens in the `hass` setter). -/
def listSetConfig (config : ListConfig) (s : ListState) : SetConfigRun ListState :=
  if truthyStr config.config_entry_id = false then
    { result := .error "config_entry_id is required", renders := [], events := [] }
  else if truthyStr config.shopping_list_id = false then
    { result := .error "shopping_list_id is required", renders := [], events := [] }
  else
    let s' := { s with config := some config, domain := jsOrStr config.domain "rohlikcz2" }
    { result := .ok s', renders := [s'], events := [] }

/-! ## Shopping-list card: `_fetchList` (source lines 33-59) -/

/-- The successful response of `get_shopping_list`
(`result.response?.name`, `result.response?.products_in_list`). -/
structure ListResp where
  name : Option String
  products_in_list : Option (List Product)
deriving Repr

/-- The `get_shopping_list` call of `_fetchList` (source lines 40-50). -/
def fetchListCall (s : ListState) : SvcCall :=
  { domain := s.domain, service := "get_shopping_list",
    data := .getShoppingList (listEntryId s) (listListId s) }

/-- `RohlikczShoppingListCard._fetchList` (source lines 33-59): sets
loading, clears error and the batch-result log, renders, issues one
`get_shopping_list` call; on success stores name and items, on failure
stores `e.message || "Failed to load shopping list"` leaving `items`
untouched; clears loading and renders again. -/
def fetchList (s : ListState) (o : Except (Option String) ListResp) : ListRun :=
  let s1 := { s with loading := true, error := none, addResults := [] }
  let c := fetchListCall s1
  match o with
  | .ok r =>
    let s2 := { s1 with listName := jsOrStr r.name "",
                        items := r.products_in_list.getD [],
                        loading := false }
    { final := s2, events := [.callStart c, .callEnd c (.ok ())], renders := [s1, s2] }
  | .error e =>
    let s2 := { s1 with error := some (jsOrStr e "Failed to load shopping list"),
                        loading := false }
    { final := s2, events := [.callStart c, .callEnd c (.error e)], renders := [s1, s2] }

/-! ## Shopping-list card: `_addAllToCart` (source lines 61-90) -/

/-- The `add_to_cart` call issued for one product (source lines 69-80):
`product_id: product.productId ?? product.id`, `quantity: 1`. -/
def addCallFor (s : ListState) (p : Product) : SvcCall :=
  { domain := s.domain, service := "add_to_cart",
    data := .addToCart (listEntryId s) (p.productId <|> p.id) 1 }

/-- The loop body of `_addAllToCart` (source lines 66-85): awaits each
add-to-cart call in turn (the `k`-th call's outcome is `outcome k`),
pushing `{name: product.productName ?? product.name, ok, error?}` per item
and continuing past failures. -/
def addAllLoop (s : ListState) (outcome : Nat → Except (Option String) Unit) :
    List Product → Nat → List LEv × List AddResult
  | [], _ => ([], [])
  | p :: ps, k =>
    let c := addCallFor s p
    let r : AddResult :=
      match outcome k with
      | .ok _ => { name := p.productName <|> p.name, ok := true, error := none }
      | .error e => { name := p.productName <|> p.name, ok := false, error := e }
    let rest := addAllLoop s outcome ps (k + 1)
    (.callStart c :: .callEnd c (outcome k) :: rest.1, r :: rest.2)

/-- `RohlikczShoppingListCard._addAllToCart` (source lines 61-90): sets
the busy flag, clears the result log, renders; sequentially adds every
item of `this._items` (each call awaited before the next starts); then
stores the collected results, clears the busy flag and renders. -/
def addAllToCart (s : ListState) (outcome : Nat → Except (Option String) Unit) : ListRun :=
  let s1 := { s with addingAll := true, addResults := [] }
  let run := addAllLoop s1 outcome s1.items 0
  let s2 := { s1 with addResults := run.2, addingAll := false }
  { final := s2, events := run.1, renders := [s1, s2] }

/-! ## Loop characterisation lemmas -/

theorem addAllLoop_spec (s : ListState) (outcome : Nat → Except (Option String) Unit)
    (ps : List Product) (k : Nat) :
    addAllLoop s outcome ps k =
      ((ps.enumFrom k).flatMap fun q =>
        [.callStart (addCallFor s q.2), .callEnd (addCallFor s q.2) (outcome q.1)],
       (ps.enumFrom k).map fun q =>
        match outcome q.1 with
        | .ok _ => { name := q.2.productName <|> q.2.name, ok := true, error := none }
        | .error e => { name := q.2.productName <|> q.2.name, ok := false, error := e }) := by
  induction ps generalizing k with
  | nil => rfl
  | cons p ps ih =>
    simp [addAllLoop, List.enumFrom, ih (k + 1)]

/-! ## Cart card: data model -/

/-- The raw config object handed to the cart card's `setConfig`
(no `shopping_list_id` requirement there). -/
structure CartConfig where
  config_entry_id : Option String
  title : Option String
  domain : Option String
deriving DecidableEq, Repr

/-- One `this._imageCache` entry (source lines 77-80). -/
structure CacheEntry where
  image : Option String
  textualAmount : Option String
deriving DecidableEq, Repr

/-- A cart line as the cart card reads it: `id` is the product id used as
cache key, `cart_item_id` the distinct removal identifier (stringified by
the DOM `data-id` round trip). -/
structure CartProduct where
  id : Nat
  name : Option String
  brand : Option String
  price : Option Int
  quantity : Int
  cart_item_id : String
deriving DecidableEq, Repr

/-- One search result (fields accessed: `id`, `name`, `brand`, `price`). -/
structure SearchItem where
  id : Nat
  name : Option String
  brand : Option String
  price : Option Int
deriving DecidableEq, Repr

/-- The mutable fields of a `RohlikczCartCard` instance
(constructor, source lines 2-16). -/
structure CartState where
  products : List CartProduct
  totalPrice : Int
  totalItems : Int
  loading : Bool
  error : Option String
  imageCache : List (Nat × CacheEntry)
  searchQuery : String
  searchResults : List SearchItem
  searching : Bool
  searchError : Option String
  addingToCart : List (Nat × Bool)
  loaded : Bool
  hasHass : Bool
  config : Option CartConfig
  domain : String
deriving DecidableEq, Repr

/-- Constructor state of the cart card. -/
def initCartState : CartState :=
  { products := [], totalPrice := 0, totalItems := 0, loading := false,
    error := none, imageCache := [], searchQuery := "", searchResults := [],
    searching := false, searchError := none, addingToCart := [],
    loaded := false, hasHass := false, config := none, domain := "rohlikcz2" }

/-- Events observable from a cart-card operation: a `hass.callService`
invocation, or the catalog image `fetch` with the batched uncached ids. -/
inductive CEv where
  | svc (c : SvcCall)
  | imgReq (ids : List Nat)
deriving DecidableEq, Repr

/-- Result of running a cart-card handler. -/
structure CartRun where
  final : CartState
  events : List CEv
  renders : List CartState
deriving Repr

/-- `config_entry_id` of the currently stored cart config. -/
def cartEntryId (s : CartState) : Option String :=
  s.config.bind fun c => c.config_entry_id

/-- First-match association lookup, modelling JS object indexing. -/
def cacheGet : List (Nat × CacheEntry) → Nat → Option CacheEntry
  | [], _ => none
  | (k0, v) :: rest, k => if k0 = k then some v else cacheGet rest k

/-- JS object assignment `cache[k] = v`: overwrite or append. -/
def cacheSet : List (Nat × CacheEntry) → Nat → CacheEntry → List (Nat × CacheEntry)
  | [], k, v => [(k, v)]
  | (k0, v0) :: rest, k, v =>
    if k0 = k then (k, v) :: rest else (k0, v0) :: cacheSet rest k v

/-- First-match lookup in the `_addingToCart` flag object. -/
def flagGet : List (Nat × Bool) → Nat → Option Bool
  | [], _ => none
  | (k0, v) :: rest, k => if k0 = k then some v else flagGet rest k

/-- `{...m, [k]: v}` on the `_addingToCart` flag object. -/
def flagSet : List (Nat × Bool) → Nat → Bool → List (Nat × Bool)
  | [], k, v => [(k, v)]
  | (k0, v0) :: rest, k, v =>
    if k0 = k then (k, v) :: rest else (k0, v0) :: flagSet rest k v

/-! ## Cart card: `setConfig` (source lines 18-25) -/

/-- `RohlikczCartCard.setConfig` (source lines 18-25): throws when
`config.config_entry_id` is JS-falsy, before any render; otherwise stores
the config, derives the domain and renders once.  No fetch is issued. -/
def cartSetConfig (config : CartConfig) (s : CartState) : SetConfigRun CartState :=
  if truthyStr config.config_entry_id = false then
    { result := .error "config_entry_id is required", renders := [], events := [] }
  else
    let s' := { s with config := some config, domain := jsOrStr config.domain "rohlikcz2" }
    { result := .ok s', renders := [s'], events := [] }

/-! ## Cart card: `_fetchImages` (source lines 67-83) -/

/-- One element of the catalog response JSON (source lines 76-81). -/
structure CatalogItem where
  id : Nat
  images : Option (List String)
  textualAmount : Option String
deriving DecidableEq, Repr

/-- Outcome of the catalog `fetch`: network failure (rejected promise),
non-ok HTTP status, or a parsed item list. -/
inductive ImgResp where
  | fail
  | notOk
  | items (its : List CatalogItem)
deriving Repr

/-- The cache entry built from one catalog item (source lines 77-80):
`item.images?.[0] || null` and `item.textualAmount || null`. -/
def entryOfItem (it : CatalogItem) : CacheEntry :=
  { image := match it.images with
      | some (x :: _) => if x = "" then none else some x
      | _ => none,
    textualAmount := match it.textualAmount with
      | some t => if t = "" then none else some t
      | none => none }

/-- `RohlikczCartCard._fetchImages` (source lines 67-83): filters the ids
to those without a cache entry, returns silently when none remain,
otherwise issues one catalog request for exactly the uncached ids and
merges returned entries into the cache; any failure is swallowed. -/
def fetchImages (cache : List (Nat × CacheEntry)) (productIds : List Nat)
    (o : ImgResp) : List (Nat × CacheEntry) × List CEv :=
  let uncached := productIds.filter fun id => (cacheGet cache id).isNone
  if uncached.isEmpty then (cache, [])
  else
    match o with
    | .fail => (cache, [.imgReq uncached])
    | .notOk => (cache, [.imgReq uncached])
    | .items its =>
      (its.foldl (fun c it => cacheSet c it.id (entryOfItem it)) cache,
       [.imgReq uncached])

/-! ## Cart card: `_fetchCart` (source lines 35-65) -/

/-- The successful `get_cart_content` response data
(`result?.response || result`, then `data?.products`, `data?.total_price`,
`data?.total_items`). -/
structure CartData where
  products : Option (List CartProduct)
  total_price : Option Int
  total_items : Option Int
deriving Repr

/-- The `get_cart_content` call (source lines 42-49). -/
def fetchCartCall (s : CartState) : SvcCall :=
  { domain := s.domain, service := "get_cart_content",
    data := .getCartContent (cartEntryId s) }

/-- `RohlikczCartCard._fetchCart` (source lines 35-65): a no-op when the
host context is missing or a fetch is already in flight; otherwise sets
loading, clears error, renders, issues one `get_cart_content` call; on
success stores products/totals and, when non-empty, batch-fetches image
metadata; on failure stores `e.message || "Failed to load cart"`; always
clears loading and renders again. -/
def fetchCart (s : CartState) (o : Except (Option String) CartData)
    (io : ImgResp) : CartRun :=
  if !s.hasHass || s.loading then { final := s, events := [], renders := [] }
  else
    let s1 := { s with loading := true, error := none }
    let c := fetchCartCall s1
    match o with
    | .ok d =>
      let s2 := { s1 with products := d.products.getD [],
                          totalPrice := d.total_price.getD 0,
                          totalItems := d.total_items.getD 0 }
      if s2.products.isEmpty then
        let s3 := { s2 with loading := false }
        { final := s3, events := [.svc c], renders := [s1, s3] }
      else
        let img := fetchImages s2.imageCache (s2.products.map fun p => p.id) io
        let s3 := { s2 with imageCache := img.1, loading := false }
        { final := s3, events := .svc c :: img.2, renders := [s1, s3] }
    | .error e =>
      let s3 := { s1 with error := some (jsOrStr e "Failed to load cart"),
                          loading := false }
      { final := s3, events := [.svc c], renders := [s1, s3] }

/-! ## Cart card: `_removeFromCart` (source lines 137-152) -/

/-- The `delete_from_cart` call (source lines 139-146): the payload's
`order_field_id` is the cart line id, not the product id. -/
def removeCall (s : CartState) (cartItemId : String) : SvcCall :=
  { domain := s.domain, service := "delete_from_cart",
    data := .deleteFromCart (cartEntryId s) cartItemId }

/-- `RohlikczCartCard._removeFromCart` (source lines 137-152): issues one
`delete_from_cart` call keyed by the cart line id; on success awaits a
full `_fetchCart()`; on failure stores
`Failed to remove item: ${e.message}` and renders, leaving the line
collection untouched. -/
def removeFromCart (s : CartState) (cartItemId : String)
    (o : Except (Option String) Unit) (oc : Except (Option String) CartData)
    (io : ImgResp) : CartRun :=
  let c := removeCall s cartItemId
  match o with
  | .ok _ =>
    let run := fetchCart s oc io
    { final := run.final, events := .svc c :: run.events, renders := run.renders }
  | .error e =>
    let s' := { s with error := some ("Failed to remove item: " ++ jsStr e) }
    { final := s', events := [.svc c], renders := [s'] }

/-! ## Cart card: `_addToCart` (source lines 117-135) -/

/-- The `add_to_cart` call of the cart card (source lines 121-126). -/
def cartAddCall (s : CartState) (productId : Nat) : SvcCall :=
  { domain := s.domain, service := "add_to_cart",
    data := .addToCart (cartEntryId s) (some productId) 1 }

/-- `RohlikczCartCard._addToCart` (source lines 117-135): marks the
product in flight and renders; on success resets `_loaded` and awaits a
full `_fetchCart()`; on failure stores `Failed to add item: ${e.message}`
in the card's main error slot; in all cases the `finally` block clears the
in-flight flag and renders. -/
def addToCart (s : CartState) (productId : Nat)
    (o : Except (Option String) Unit) (oc : Except (Option String) CartData)
    (io : ImgResp) : CartRun :=
  let s1 := { s with addingToCart := flagSet s.addingToCart productId true }
  let c := cartAddCall s1 productId
  match o with
  | .ok _ =>
    let s2 := { s1 with loaded := false }
    let run := fetchCart s2 oc io
    let sf := { run.final with
      addingToCart := flagSet run.final.addingToCart productId false }
    { final := sf, events := .svc c :: run.events,
      renders := [s1] ++ run.renders ++ [sf] }
  | .error e =>
    let s2 := { s1 with error := some ("Failed to add item: " ++ jsStr e) }
    let sf := { s2 with addingToCart := flagSet s2.addingToCart productId false }
    { final := sf, events := [.svc c], renders := [s1, sf] }

/-! ## Cart card: `_searchProducts` (source lines 85-115) -/

/-- The successful `search_product` response data
(`data?.search_results`). -/
structure SearchData where
  search_results : Option (List SearchItem)
deriving Repr

/-- The `search_product` call (source lines 96-101): `product_name` is the
raw query, `limit` is the literal 10. -/
def searchCall (s : CartState) (query : String) : SvcCall :=
  { domain := s.domain, service := "search_product",
    data := .searchProduct (cartEntryId s) query 10 }

/-- `RohlikczCartCard._searchProducts` (source lines 85-115): a query that
is empty or shorter than 2 characters after trimming clears results and
search error with no remote call; otherwise sets searching, clears the
prior search error, renders, issues one `search_product` call with
`limit: 10`; on success stores results and, when non-empty, batch-fetches
image metadata; on failure stores `e.message || "Search failed"` and
clears results; always clears searching and renders again. -/
def searchProducts (s : CartState) (query : String)
    (o : Except (Option String) SearchData) (io : ImgResp) : CartRun :=
  if query == "" || (jsTrim query.toList).length < 2 then
    let s1 := { s with searchResults := [], searchError := none }
    { final := s1, events := [], renders := [s1] }
  else
    let s1 := { s with searching := true, searchError := none }
    let c := searchCall s1 query
    match o with
    | .ok d =>
      let raw := d.search_results.getD []
      let s2 := { s1 with searchResults := raw }
      if raw.isEmpty then
        let sf := { s2 with searching := false }
        { final := sf, events := [.svc c], renders := [s1, sf] }
      else
        let img := fetchImages s2.imageCache (raw.map fun p => p.id) io
        let sf := { s2 with imageCache := img.1, searching := false }
        { final := sf, events := .svc c :: img.2, renders := [s1, sf] }
    | .error e =>
      let sf := { s1 with searchError := some (jsOrStr e "Search failed"),
                          searchResults := [], searching := false }
      { final := sf, events := [.svc c], renders := [s1, sf] }

/-! ## Cart card: render body selection (source lines 397-404) -/

/-- Which of the four mutually exclusive body panels `_render` builds. -/
inductive CartBody where
  | loadingView
  | errorView (msg : String)
  | emptyView
  | itemsView
deriving DecidableEq, Repr

/-- The `if/else` chain choosing the cart card's body (source lines
397-404): loading, then truthy error, then empty products, then items. -/
def cartRenderBodyKind (s : CartState) : CartBody :=
  if s.loading then .loadingView
  else if truthyStr s.error then .errorView (s.error.getD "")
  else if s.products.isEmpty then .emptyView
  else .itemsView

/-- `true` exactly on the `get_cart_content` service call event. -/
def isGetCart : CEv → Bool
  | .svc c => c.service == "get_cart_content"
  | _ => false

/-! ## C1: sequential batch add -/

/-- Concrete three-item list [A, B, C] for the batch-add scenario. -/
def abcProduct (n : Nat) (nm : String) : Product :=
  { productId := some n, id := none, productName := some nm, name := none,
    brand := none, textualAmount := none, amount := none, price := none }

/-- List-card state holding exactly the items A, B, C. -/
def abcState : ListState :=
  { initListState with
      items := [abcProduct 1 "A", abcProduct 2 "B", abcProduct 3 "C"],
      config := some { config_entry_id := some "entry1",
                       shopping_list_id := some "list1",
                       title := none, domain := none } }

/-- Outcome oracle where the second add call (item B) fails. -/
def abcOutcome : Nat → Except (Option String) Unit :=
  fun k => if k = 1 then .error (some "boom") else .ok ()

/-- C1: `addAllToCart` sets the busy flag (first render snapshot has
`addingAll := true` and an empty result log), issues one add-to-cart call
per item with `quantity = 1` strictly sequentially in list order (the
event trace is exactly start-then-completion for item 0, then item 1, …),
records one outcome per item keyed by display name, continues past
failures, and ends with the busy flag cleared and a result log of exactly
`n` entries in list order; in particular over [A, B, C] with B failing the
log is exactly [A ok, B failed "boom", C ok]. -/
theorem addAllToCart_sequential_per_item_log :
    (∀ (s : ListState) (outcome : Nat → Except (Option String) Unit),
      (addAllToCart s outcome).renders =
          [{ s with addingAll := true, addResults := [] },
           (addAllToCart s outcome).final]
      ∧ (addAllToCart s outcome).final.addingAll = false
      ∧ (addAllToCart s outcome).final.items = s.items
      ∧ (addAllToCart s outcome).final.addResults.length = s.items.length
      ∧ (addAllToCart s outcome).events =
          (s.items.enum.flatMap fun q =>
            [LEv.callStart { domain := s.domain, service := "add_to_cart",
                             data := .addToCart (listEntryId s)
                                       (q.2.productId <|> q.2.id) 1 },
             LEv.callEnd { domain := s.domain, service := "add_to_cart",
                           data := .addToCart (listEntryId s)
                                     (q.2.productId <|> q.2.id) 1 }
               (outcome q.1)])
      ∧ (addAllToCart s outcome).final.addResults =
          (s.items.enum.map fun q =>
            match outcome q.1 with
            | .ok _ => { name := q.2.productName <|> q.2.name, ok := true,
                         error := none }
            | .error e => { name := q.2.productName <|> q.2.name, ok := false,
                            error := e }))
    ∧ (addAllToCart abcState abcOutcome).final.addResults =
        [{ name := some "A", ok := true, error := none },
         { name := some "B", ok := false, error := some "boom" },
         { name := some "C", ok := true, error := none }] := by
  constructor
  · intro s outcome
    refine ⟨rfl, rfl, rfl, ?_, ?_, ?_⟩
    · simp [addAllToCart, addAllLoop_spec, List.enum]
    · simp [addAllToCart, addAllLoop_spec, addCallFor, listEntryId, List.enum]
    · simp [addAllToCart, addAllLoop_spec, List.enum]
  · rfl

/-! ## C4: configuration validation -/

/-- C4 counterexample: a configuration whose `config_entry_id` is present
(`some ""`, i.e. the field exists on the object) is rejected by both
cards' `setConfig`, because the source tests JS truthiness
(`!config.config_entry_id`), not mere presence; so "for every
configuration with the required fields present, configure succeeds" is
false. -/
theorem setConfig_present_empty_counterexample :
    (ListConfig.mk (some "") (some "list1") none none).config_entry_id.isSome = true
    ∧ (listSetConfig (ListConfig.mk (some "") (some "list1") none none)
        initListState).result = .error "config_entry_id is required"
    ∧ (CartConfig.mk (some "") none none).config_entry_id.isSome = true
    ∧ (cartSetConfig (CartConfig.mk (some "") none none)
        initCartState).result = .error "config_entry_id is required" := by
  refine ⟨rfl, rfl, rfl, rfl⟩

/-- C4 amended: for every configuration whose `config_entry_id` (and, for
the list card, `shopping_list_id`) is missing *or empty* (JS-falsy),
`setConfig` throws the corresponding configuration error and performs no
render and no remote call; when both required fields are present and
non-empty, `setConfig` succeeds, stores the config and derives the call
domain, rendering once. -/
theorem setConfig_validates_required_fields
    (cfg : ListConfig) (ccfg : CartConfig) (s : ListState) (cs : CartState) :
    (truthyStr cfg.config_entry_id = false →
      listSetConfig cfg s =
        { result := .error "config_entry_id is required", renders := [], events := [] })
    ∧ (truthyStr cfg.config_entry_id = true → truthyStr cfg.shopping_list_id = false →
      listSetConfig cfg s =
        { result := .error "shopping_list_id is required", renders := [], events := [] })
    ∧ (truthyStr cfg.config_entry_id = true → truthyStr cfg.shopping_list_id = true →
      listSetConfig cfg s =
        { result := .ok { s with config := some cfg,
                                 domain := jsOrStr cfg.domain "rohlikcz2" },
          renders := [{ s with config := some cfg,
                               domain := jsOrStr cfg.domain "rohlikcz2" }],
          events := [] })
    ∧ (truthyStr ccfg.config_entry_id = false →
      cartSetConfig ccfg cs =
        { result := .error "config_entry_id is required", renders := [], events := [] })
    ∧ (truthyStr ccfg.config_entry_id = true →
      cartSetConfig ccfg cs =
        { result := .ok { cs with config := some ccfg,
                                  domain := jsOrStr ccfg.domain "rohlikcz2" },
          renders := [{ cs with config := some ccfg,
                                domain := jsOrStr ccfg.domain "rohlikcz2" }],
          events := [] }) := by
  refine ⟨fun h => ?_, fun h1 h2 => ?_, fun h1 h2 => ?_, fun h => ?_, fun h => ?_⟩ <;>
    simp [listSetConfig, cartSetConfig, *]

/-- C4 witness: concrete instances of `setConfig_validates_required_fields`
— a config with no `config_entry_id` is rejected, a config with both
fields non-empty is accepted and stored. -/
theorem setConfig_validates_required_fields_witness :
    (listSetConfig (ListConfig.mk none (some "l") none none) initListState).result
        = .error "config_entry_id is required"
    ∧ (listSetConfig (ListConfig.mk (some "e") (some "l") none none)
        initListState).result
        = .ok { initListState with
                  config := some (ListConfig.mk (some "e") (some "l") none none),
                  domain := "rohlikcz2" }
    ∧ (cartSetConfig (CartConfig.mk (some "e") none none) initCartState).result
        = .ok { initCartState with
                  config := some (CartConfig.mk (some "e") none none),
                  domain := "rohlikcz2" } := by
  refine ⟨?_, ?_, ?_⟩
  · exact congrArg SetConfigRun.result
      ((setConfig_validates_required_fields (ListConfig.mk none (some "l") none none)
        (CartConfig.mk (some "e") none none) initListState initCartState).1 rfl)
  · exact congrArg SetConfigRun.result
      (((setConfig_validates_required_fields (ListConfig.mk (some "e") (some "l") none none)
        (CartConfig.mk (some "e") none none) initListState initCartState).2.2.1 rfl rfl))
  · exact congrArg SetConfigRun.result
      (((setConfig_validates_required_fields (ListConfig.mk (some "e") (some "l") none none)
        (CartConfig.mk (some "e") none none) initListState initCartState).2.2.2.2 rfl))

/-! ## Toast notification (`_showToast`, source lines 113-124)

A discrete-time model of the single toast element and of `setTimeout`:
the world carries the current time in milliseconds and the multiset of
scheduled hide callbacks (`setTimeout(..., 2500)` appends `now + 2500`);
`fireDue` advances the clock and runs every callback whose time has come.
Timers are never cancelled anywhere in the source. -/

/-- Inline style and content of the `.toast` element. -/
structure ToastEl where
  textContent : String
  background : String
  opacity : String
  transform : String
deriving DecidableEq, Repr

/-- The toast element together with the clock and pending hide timers. -/
structure ToastWorld where
  now : Nat
  el : ToastEl
  timers : List Nat
deriving DecidableEq, Repr

/-- The freshly rendered `.toast` element: no inline styles set yet
(stylesheet gives it opacity 0, i.e. invisible). -/
def toastInit : ToastWorld :=
  { now := 0, el := { textContent := "", background := "", opacity := "",
                      transform := "" }, timers := [] }

/-- `RohlikczShoppingListCard._showToast(msg, isError)` (source lines
113-124): mutates the single toast element to show `msg` immediately and
schedules — without cancelling any earlier timer — a callback 2500 ms
later that sets `opacity: 0`. -/
def showToast (w : ToastWorld) (msg : String) (isError : Bool) : ToastWorld :=
  { w with
      el := { textContent := msg,
              background := if isError then "var(--error-color, #c62828)"
                            else "var(--success-color, #2e7d32)",
              opacity := "1",
              transform := "translateY(0)" },
      timers := w.timers ++ [w.now + 2500] }

/-- Advance the clock to `t`, firing every pending `setTimeout` callback
whose scheduled time is ≤ `t`; each callback hides the toast
(source lines 120-123). -/
def fireDue (t : Nat) (w : ToastWorld) : ToastWorld :=
  let due := w.timers.filter fun x => x ≤ t
  let remaining := w.timers.filter fun x => ¬ (x ≤ t)
  if due.isEmpty then { w with now := t, timers := remaining }
  else
    { w with now := t, timers := remaining,
             el := { w.el with opacity := "0", transform := "translateY(8px)" } }

/-! ## C3: toast dismissal timing -/

/-- C3 counterexample: show toast "A" at t=0 and toast "B" at t=1000; at
t=2600 the first call's un-cancelled timer has already fired and hidden
the toast, although only 1.6 s — not 2.5 s — have elapsed since the most
recent `_showToast` call.  The claim that the toast "is dismissed exactly
2.5 seconds after the most recent `_showToast` call" and that the second
toast "remains visible for a full 2.5s" is therefore false. -/
theorem showToast_timer_not_restarted_counterexample :
    (fireDue 2600 (showToast (fireDue 1000 (showToast toastInit "A" false))
        "B" false)).el.opacity = "0"
    ∧ (fireDue 2600 (showToast (fireDue 1000 (showToast toastInit "A" false))
        "B" false)).el.textContent = "B"
    ∧ 2600 < 1000 + 2500 := by
  refine ⟨rfl, rfl, by decide⟩

/-- C3 amended: `_showToast` makes the toast visible immediately with the
given content and schedules a hide callback exactly 2.5 s later, but never
cancels earlier timers; consequently the toast goes invisible as soon as
*any* outstanding timer fires — a second notification shown while an
earlier timer is pending is dismissed at that earlier timer's expiry —
and only when no earlier timer is pending does the toast stay visible for
the full 2.5 s and get dismissed at exactly 2.5 s after the call. -/
theorem showToast_schedules_uncancelled_hide (w : ToastWorld) (msg : String)
    (isError : Bool) (t : Nat) :
    ((showToast w msg isError).el.textContent = msg
      ∧ (showToast w msg isError).el.opacity = "1"
      ∧ (showToast w msg isError).timers = w.timers ++ [w.now + 2500])
    ∧ ((∃ x ∈ w.timers, x ≤ t) → (fireDue t w).el.opacity = "0")
    ∧ (w.timers = [] → t < w.now + 2500 →
        (fireDue t (showToast w msg isError)).el.opacity = "1")
    ∧ (w.timers = [] →
        (fireDue (w.now + 2500) (showToast w msg isError)).el.opacity = "0") := by
  refine ⟨⟨rfl, rfl, rfl⟩, fun ⟨x, hx, hxt⟩ => ?_, fun h0 ht => ?_, fun h0 => ?_⟩
  · have : ¬ (w.timers.filter fun x => x ≤ t).isEmpty := by
      simp [List.isEmpty_iff, List.filter_eq_nil_iff]
      exact ⟨x, hx, hxt⟩
    simp only [fireDue]
    split
    · exact absurd (by assumption) this
    · rfl
  · have : ((showToast w msg isError).timers.filter fun x => x ≤ t).isEmpty := by
      simp [showToast, h0, List.isEmpty_iff, List.filter_eq_nil_iff]
      omega
    simp only [fireDue]
    split
    · simp [showToast]
    · exact absurd this (by assumption)
  · have : ¬ (((showToast w msg isError).timers.filter
        fun x => x ≤ w.now + 2500)).isEmpty := by
      simp [showToast, h0, List.isEmpty_iff, List.filter_eq_nil_iff]
    simp only [fireDue]
    split
    · exact absurd (by assumption) this
    · rfl

/-- C3 witness: concrete instance of `showToast_schedules_uncancelled_hide`
— a toast shown at t=0 with no pending timer is still visible at t=2400
and hidden at t=2500. -/
theorem showToast_schedules_uncancelled_hide_witness :
    (fireDue 2400 (showToast toastInit "done" false)).el.opacity = "1"
    ∧ (fireDue 2500 (showToast toastInit "done" false)).el.opacity = "0" := by
  exact ⟨(showToast_schedules_uncancelled_hide toastInit "done" false 2400).2.2.1
            rfl (by decide),
         (showToast_schedules_uncancelled_hide toastInit "done" false 2500).2.2.2
            rfl⟩

/-! ## Helper lemmas on the cart card's traces -/

/-- `true` exactly on the `search_product` service call event. -/
def isSearchCall : CEv → Bool
  | .svc c => c.service == "search_product"
  | _ => false

theorem fetchImages_snd_eq (cache : List (Nat × CacheEntry))
    (ids : List Nat) (o : ImgResp) :
    (fetchImages cache ids o).2 =
      if (ids.filter fun id => (cacheGet cache id).isNone).isEmpty then []
      else [CEv.imgReq (ids.filter fun id => (cacheGet cache id).isNone)] := by
  rcases h : (ids.filter fun id => (cacheGet cache id).isNone).isEmpty with _ | _ <;>
    cases o <;> simp [fetchImages, h]

theorem fetchImages_fst_fail (cache : List (Nat × CacheEntry)) (ids : List Nat) :
    (fetchImages cache ids .fail).1 = cache
    ∧ (fetchImages cache ids .notOk).1 = cache := by
  rcases h : (ids.filter fun id => (cacheGet cache id).isNone).isEmpty with _ | _ <;>
    simp [fetchImages, h]

theorem fetchImages_countP_zero (cache : List (Nat × CacheEntry))
    (ids : List Nat) (o : ImgResp) (p : CEv → Bool)
    (hp : ∀ l, p (CEv.imgReq l) = false) :
    (fetchImages cache ids o).2.countP p = 0 := by
  rw [fetchImages_snd_eq]
  split
  · rfl
  · simp [List.countP_cons, hp]

theorem fetchCart_countP_getcart (s : CartState)
    (oc : Except (Option String) CartData) (io : ImgResp)
    (hh : s.hasHass = true) (hl : s.loading = false) :
    (fetchCart s oc io).events.countP isGetCart = 1 := by
  cases oc with
  | ok d =>
    rcases hp : (d.products.getD []).isEmpty with _ | _ <;>
      simp [fetchCart, hh, hl, hp, isGetCart, fetchCartCall, List.countP_cons,
        fetchImages_countP_zero _ _ _ isGetCart fun _ => rfl]
  | error e => simp [fetchCart, hh, hl, isGetCart, fetchCartCall]

theorem fetchCart_final_addingToCart (s : CartState)
    (oc : Except (Option String) CartData) (io : ImgResp) :
    (fetchCart s oc io).final.addingToCart = s.addingToCart := by
  rcases hg : (!s.hasHass || s.loading) with _ | _
  · cases oc with
    | ok d =>
      rcases hp : (d.products.getD []).isEmpty with _ | _ <;>
        simp [fetchCart, hg, hp]
    | error e => simp [fetchCart, hg]
  · simp [fetchCart, hg]

theorem fetchCart_final_loaded (s : CartState)
    (oc : Except (Option String) CartData) (io : ImgResp) :
    (fetchCart s oc io).final.loaded = s.loaded := by
  rcases hg : (!s.hasHass || s.loading) with _ | _
  · cases oc with
    | ok d =>
      rcases hp : (d.products.getD []).isEmpty with _ | _ <;>
        simp [fetchCart, hg, hp]
    | error e => simp [fetchCart, hg]
  · simp [fetchCart, hg]

theorem flagGet_flagSet (m : List (Nat × Bool)) (k : Nat) (v : Bool) :
    flagGet (flagSet m k v) k = some v := by
  induction m with
  | nil => simp [flagSet, flagGet]
  | cons kv rest ih =>
    by_cases h : kv.1 = k
    · simp [flagSet, flagGet, h]
    · simp [flagSet, flagGet, h, ih]

/-! ## C5: search query boundary and single remote call -/

/-- C5: a query whose trimmed length is below 2 (including the empty
query) makes `_searchProducts` clear the search results and the search
error and issue no remote call at all; a query of trimmed length at least
2 makes it first render with `searching := true` and a cleared search
error, and issue exactly one `search_product` call, whose payload carries
`limit: 10`. -/
theorem searchProducts_boundary_and_limit (s : CartState) (query : String)
    (o : Except (Option String) SearchData) (io : ImgResp) :
    ((jsTrim query.toList).length < 2 →
      (searchProducts s query o io).final.searchResults = []
      ∧ (searchProducts s query o io).final.searchError = none
      ∧ (searchProducts s query o io).events = [])
    ∧ (2 ≤ (jsTrim query.toList).length →
      (searchProducts s query o io).renders.head? =
          some { s with searching := true, searchError := none }
      ∧ (searchProducts s query o io).events.head? =
          some (.svc { domain := s.domain, service := "search_product",
                       data := .searchProduct (cartEntryId s) query 10 })
      ∧ (searchProducts s query o io).events.countP isSearchCall = 1) := by
  constructor
  · intro hshort
    have hgt : (query == "" || decide ((jsTrim query.toList).length < 2)) = true := by
      have hd : decide ((jsTrim query.toList).length < 2) = true := decide_eq_true hshort
      rw [hd, Bool.or_true]
    cases o with
    | ok d =>
      simp only [searchProducts]
      split
      · exact ⟨rfl, rfl, rfl⟩
      · next h => exact absurd hgt h
    | error e =>
      simp only [searchProducts]
      split
      · exact ⟨rfl, rfl, rfl⟩
      · next h => exact absurd hgt h
  · intro hlong
    have hne : query ≠ "" := by
      intro he
      rw [he] at hlong
      have h0 : (jsTrim "".toList).length = 0 := rfl
      omega
    have hqf : (query == "" || decide ((jsTrim query.toList).length < 2)) = false := by
      have hd : decide ((jsTrim query.toList).length < 2) = false :=
        decide_eq_false (by omega)
      have hb : (query == "") = false := beq_eq_false_iff_ne.mpr hne
      rw [hb, hd]
      rfl
    cases o with
    | ok d =>
      simp only [searchProducts]
      split
      · next h => rw [hqf] at h; exact Bool.noConfusion h
      · split
        · exact ⟨rfl, rfl, by simp [isSearchCall, searchCall, List.countP_cons]⟩
        · refine ⟨rfl, rfl, ?_⟩
          simp [isSearchCall, searchCall, List.countP_cons,
            fetchImages_countP_zero _ _ _ isSearchCall fun _ => rfl]
    | error e =>
      simp only [searchProducts]
      split
      · next h => rw [hqf] at h; exact Bool.noConfusion h
      · exact ⟨rfl, rfl, by simp [isSearchCall, searchCall, List.countP_cons]⟩

/-- C5 witness: concrete instances of `searchProducts_boundary_and_limit`
— the one-character query "a" issues no remote call and clears previous
results; the query "milk" issues exactly one `search_product` call. -/
theorem searchProducts_boundary_and_limit_witness :
    ((searchProducts { initCartState with
        searchResults := [{ id := 7, name := some "old", brand := none,
                            price := none }] } "a" (.ok { search_results := none })
        ImgResp.fail).final.searchResults = []
      ∧ (searchProducts { initCartState with
          searchResults := [{ id := 7, name := some "old", brand := none,
                              price := none }] } "a" (.ok { search_results := none })
          ImgResp.fail).events = [])
    ∧ (searchProducts initCartState "milk" (.ok { search_results := none })
        ImgResp.fail).events.countP isSearchCall = 1 := by
  have h1 := searchProducts_boundary_and_limit
    { initCartState with
        searchResults := [{ id := 7, name := some "old", brand := none,
                            price := none }] } "a" (.ok { search_results := none })
    ImgResp.fail
  have h2 := searchProducts_boundary_and_limit initCartState "milk"
    (.ok { search_results := none }) ImgResp.fail
  exact ⟨⟨(h1.1 (by decide)).1, (h1.1 (by decide)).2.2⟩, (h2.2 (by decide)).2.2⟩

/-! ## C6: removing a cart line -/

/-- C6: `_removeFromCart` issues exactly one `delete_from_cart` call whose
payload is keyed by the cart line id (`order_field_id`), not the product
id; on success it triggers exactly one full cart refresh
(`get_cart_content` appears exactly once in the trace); on failure it
triggers zero refreshes, stores `Failed to remove item: ${e.message}` and
re-renders once with the line collection untouched. -/
theorem removeLine_refresh_policy (s : CartState) (cartItemId : String)
    (o : Except (Option String) Unit) (oc : Except (Option String) CartData)
    (io : ImgResp) (hh : s.hasHass = true) (hl : s.loading = false) :
    (removeFromCart s cartItemId o oc io).events.head? =
        some (.svc { domain := s.domain, service := "delete_from_cart",
                     data := .deleteFromCart (cartEntryId s) cartItemId })
    ∧ (o = .ok () →
        (removeFromCart s cartItemId o oc io).events.countP isGetCart = 1)
    ∧ (∀ e, o = .error e →
        (removeFromCart s cartItemId o oc io).events.countP isGetCart = 0
        ∧ (removeFromCart s cartItemId o oc io).final.error =
            some ("Failed to remove item: " ++ jsStr e)
        ∧ (removeFromCart s cartItemId o oc io).final.products = s.products
        ∧ (removeFromCart s cartItemId o oc io).renders =
            [(removeFromCart s cartItemId o oc io).final]) := by
  refine ⟨?_, fun ho => ?_, fun e he => ?_⟩
  · cases o <;> simp [removeFromCart, removeCall, cartEntryId]
  · subst ho
    simp [removeFromCart, removeCall, isGetCart, List.countP_cons,
      fetchCart_countP_getcart s oc io hh hl]
  · subst he
    exact ⟨by simp [removeFromCart, removeCall, isGetCart, List.countP_cons],
           rfl, rfl, rfl⟩

/-- C6 witness: concrete instances of `removeLine_refresh_policy` — a
successful removal issues exactly one cart refresh, a failed removal
issues none and stores the error. -/
theorem removeLine_refresh_policy_witness :
    (removeFromCart { initCartState with hasHass := true } "line-1" (.ok ())
        (.ok { products := some [], total_price := some 0, total_items := some 0 })
        ImgResp.fail).events.countP isGetCart = 1
    ∧ (removeFromCart { initCartState with hasHass := true } "line-1"
        (.error (some "denied"))
        (.ok { products := some [], total_price := some 0, total_items := some 0 })
        ImgResp.fail).events.countP isGetCart = 0
    ∧ (removeFromCart { initCartState with hasHass := true } "line-1"
        (.error (some "denied"))
        (.ok { products := some [], total_price := some 0, total_items := some 0 })
        ImgResp.fail).final.error = some "Failed to remove item: denied" := by
  have h1 := removeLine_refresh_policy { initCartState with hasHass := true }
    "line-1" (.ok ())
    (.ok { products := some [], total_price := some 0, total_items := some 0 })
    ImgResp.fail rfl rfl
  have h2 := removeLine_refresh_policy { initCartState with hasHass := true }
    "line-1" (.error (some "denied"))
    (.ok { products := some [], total_price := some 0, total_items := some 0 })
    ImgResp.fail rfl rfl
  exact ⟨h1.2.1 rfl, (h2.2.2 (some "denied") rfl).1, (h2.2.2 (some "denied") rfl).2.1⟩

/-! ## C9: add-from-search -/

/-- C9: `_addToCart` marks the product in flight before the call (the
first render snapshot carries the flag set to true) and the `finally`
block clears the flag regardless of outcome; a successful add resets the
`_loaded` flag and triggers a full cart refetch (exactly one
`get_cart_content` in the trace); a failed add stores
`Failed to add item: ${e.message}` in the card's main error slot — so by
render precedence the error panel replaces the cart view — and triggers
no refetch. -/
theorem addFromSearch_refetch_and_flag (s : CartState) (productId : Nat)
    (o : Except (Option String) Unit) (oc : Except (Option String) CartData)
    (io : ImgResp) (hh : s.hasHass = true) (hl : s.loading = false) :
    (addToCart s productId o oc io).renders.head? =
        some { s with addingToCart := flagSet s.addingToCart productId true }
    ∧ flagGet (addToCart s productId o oc io).final.addingToCart productId
        = some false
    ∧ (o = .ok () →
        (addToCart s productId o oc io).events.countP isGetCart = 1
        ∧ (addToCart s productId o oc io).final.loaded = false)
    ∧ (∀ e, o = .error e →
        (addToCart s productId o oc io).events.countP isGetCart = 0
        ∧ (addToCart s productId o oc io).final.error =
            some ("Failed to add item: " ++ jsStr e)
        ∧ cartRenderBodyKind (addToCart s productId o oc io).final =
            .errorView ("Failed to add item: " ++ jsStr e)) := by
  refine ⟨?_, ?_, fun ho => ?_, fun e he => ?_⟩
  · cases o <;> simp [addToCart]
  · cases o <;> simp [addToCart, flagGet_flagSet]
  · subst ho
    constructor
    · simp [addToCart, cartAddCall, isGetCart, List.countP_cons]
      exact fetchCart_countP_getcart _ oc io hh hl
    · simp [addToCart, fetchCart_final_loaded]
  · subst he
    refine ⟨by simp [addToCart, cartAddCall, isGetCart, List.countP_cons], rfl, ?_⟩
    have hmsg : ("Failed to add item: " ++ jsStr e) ≠ "" := by
      intro hcontra
      have hlen := congrArg String.length hcontra
      rw [String.length_append] at hlen
      have h20 : ("Failed to add item: ").length = 20 := rfl
      have h0 : ("" : String).length = 0 := rfl
      omega
    simp [addToCart, cartRenderBodyKind, hl, truthyStr, hmsg]

/-- C9 witness: concrete instances of `addFromSearch_refetch_and_flag` —
a successful add refetches the cart once with the flag cleared afterwards,
a failed add stores the error and selects the error panel. -/
theorem addFromSearch_refetch_and_flag_witness :
    (addToCart { initCartState with hasHass := true } 42 (.ok ())
        (.ok { products := some [], total_price := some 0, total_items := some 0 })
        ImgResp.fail).events.countP isGetCart = 1
    ∧ flagGet (addToCart { initCartState with hasHass := true } 42 (.ok ())
        (.ok { products := some [], total_price := some 0, total_items := some 0 })
        ImgResp.fail).final.addingToCart 42 = some false
    ∧ cartRenderBodyKind (addToCart { initCartState with hasHass := true } 42
        (.error (some "out of stock"))
        (.ok { products := some [], total_price := some 0, total_items := some 0 })
        ImgResp.fail).final
      = .errorView "Failed to add item: out of stock" := by
  have h1 := addFromSearch_refetch_and_flag { initCartState with hasHass := true }
    42 (.ok ())
    (.ok { products := some [], total_price := some 0, total_items := some 0 })
    ImgResp.fail rfl rfl
  have h2 := addFromSearch_refetch_and_flag { initCartState with hasHass := true }
    42 (.error (some "out of stock"))
    (.ok { products := some [], total_price := some 0, total_items := some 0 })
    ImgResp.fail rfl rfl
  exact ⟨(h1.2.2.1 rfl).1, h1.2.1, (h2.2.2.2 (some "out of stock") rfl).2.2⟩

/-! ## C7: image cache filtering -/

/-- C7: a `_fetchImages` call requests only the ids still absent from the
cache (in particular, after a first call has populated entries for all of
`ids2`, a second call with `ids2` issues no catalog request at all), and a
failed or non-ok catalog lookup leaves the cache unchanged. -/
theorem resolveImages_filters_cached (cache : List (Nat × CacheEntry))
    (ids1 ids2 : List Nat) (o1 o2 : ImgResp) :
    (∀ l, CEv.imgReq l ∈ (fetchImages (fetchImages cache ids1 o1).1 ids2 o2).2 →
        l = ids2.filter fun id =>
              (cacheGet (fetchImages cache ids1 o1).1 id).isNone)
    ∧ ((∀ id ∈ ids2, (cacheGet (fetchImages cache ids1 o1).1 id).isSome) →
        (fetchImages (fetchImages cache ids1 o1).1 ids2 o2).2 = [])
    ∧ (fetchImages cache ids1 ImgResp.fail).1 = cache
    ∧ (fetchImages cache ids1 ImgResp.notOk).1 = cache := by
  refine ⟨?_, ?_, (fetchImages_fst_fail cache ids1).1,
    (fetchImages_fst_fail cache ids1).2⟩
  · intro l hl
    rw [fetchImages_snd_eq] at hl
    split at hl
    · simp at hl
    · simp at hl
      exact hl
  · intro hall
    rw [fetchImages_snd_eq]
    have hfil : (ids2.filter fun id =>
        (cacheGet (fetchImages cache ids1 o1).1 id).isNone) = [] := by
      rw [List.filter_eq_nil_iff]
      intro a ha
      cases hcg : cacheGet (fetchImages cache ids1 o1).1 a with
      | none =>
        have := hall a ha
        rw [hcg] at this
        exact Bool.noConfusion this
      | some v => simp [hcg]
    rw [hfil]
    rfl

/-- C7 witness: concrete instance of `resolveImages_filters_cached` —
after a first lookup caches ids 1 and 2, a second call for [2, 1] issues
no catalog request, and a failed lookup leaves the cache unchanged. -/
theorem resolveImages_filters_cached_witness :
    (fetchImages (fetchImages [] [1, 2] (ImgResp.items
        [{ id := 1, images := some ["u1"], textualAmount := some "1 kg" },
         { id := 2, images := some [], textualAmount := none }])).1 [2, 1]
      ImgResp.notOk).2 = []
    ∧ (fetchImages [] [5] ImgResp.fail).1 = [] := by
  exact ⟨(resolveImages_filters_cached [] [1, 2] [2, 1] (ImgResp.items
        [{ id := 1, images := some ["u1"], textualAmount := some "1 kg" },
         { id := 2, images := some [], textualAmount := none }])
      ImgResp.notOk).2.1 (by decide),
    (resolveImages_filters_cached [] [5] [] ImgResp.fail ImgResp.fail).2.2.1⟩

/-! ## C8: card size hints -/

/-- `RohlikczShoppingListCard.getCardSize` (source lines 413-415):
`Math.max(1, Math.ceil(this._items.length / 2) + 2)`; for naturals
`Math.ceil(n / 2) = (n + 1) / 2`. -/
def listGetCardSize (s : ListState) : Nat :=
  max 1 ((s.items.length + 1) / 2 + 2)

/-- The size-hint member the list card exposes to the host. -/
def listCardSizeHint : Option (ListState → Nat) := some listGetCardSize

/-- The size-hint member of the cart card: the `RohlikczCartCard` class
body (source lines 1-537) declares no `getCardSize` member, so the cart
card exposes no size hint to the host. -/
def cartCardSizeHint : Option (CartState → Nat) := none

/-- C8 counterexample: the cart card exposes no size hint at all (its
class declares no `getCardSize`), so "every card component exposes a size
hint to the host" is false; only the shopping-list card has one. -/
theorem cartCard_no_size_hint_counterexample :
    cartCardSizeHint = none ∧ listCardSizeHint ≠ none := by
  refine ⟨rfl, by simp [listCardSizeHint]⟩

/-- C8 amended: the shopping-list card's size hint equals
`max(1, ceil(n/2) + 2)` for item count `n`, and it is the exposed member;
the cart card exposes no size hint. -/
theorem listCard_size_hint_formula :
    (∀ s : ListState, listGetCardSize s =
        max 1 ((if s.items.length % 2 = 0 then s.items.length / 2
                else s.items.length / 2 + 1) + 2))
    ∧ listCardSizeHint = some listGetCardSize
    ∧ cartCardSizeHint = none := by
  refine ⟨fun s => ?_, rfl, rfl⟩
  unfold listGetCardSize
  by_cases h : s.items.length % 2 = 0 <;> simp [h] <;> omega

/-! ## Shopping-list card: `_escHtml` (source lines 405-411) -/

/-- One JS `String.replace(/c/g, r)` pass: every occurrence of the single
character `c` becomes the string `r`. -/
def replaceAllC (c : Char) (r : List Char) : List Char → List Char
  | [] => []
  | x :: xs => (if x = c then r else [x]) ++ replaceAllC c r xs

/-- `RohlikczShoppingListCard._escHtml` (source lines 405-411): the four
sequential global replacements, ampersand first, then `<`, `>`, `"`. -/
def escHtml (l : List Char) : List Char :=
  replaceAllC '"' (lit "&quot;")
    (replaceAllC '>' (lit "&gt;")
      (replaceAllC '<' (lit "&lt;")
        (replaceAllC '&' (lit "&amp;") l)))

/-- `_escHtml` applied to a string value. -/
def escS (s : String) : List Char := escHtml s.toList

/-- What one input character contributes to the `_escHtml` output. -/
def escChar (c : Char) : List Char :=
  if c = '&' then lit "&amp;"
  else if c = '<' then lit "&lt;"
  else if c = '>' then lit "&gt;"
  else if c = '"' then lit "&quot;" else [c]

theorem replaceAllC_append (c : Char) (r a b : List Char) :
    replaceAllC c r (a ++ b) = replaceAllC c r a ++ replaceAllC c r b := by
  induction a with
  | nil => rfl
  | cons x xs ih => simp [replaceAllC, ih]

theorem escPasses_single (c : Char) :
    replaceAllC '"' (lit "&quot;") (replaceAllC '>' (lit "&gt;")
      (replaceAllC '<' (lit "&lt;") (if c = '&' then lit "&amp;" else [c])))
    = escChar c := by
  by_cases h1 : c = '&'
  · subst h1; rfl
  · by_cases h2 : c = '<'
    · subst h2; rfl
    · by_cases h3 : c = '>'
      · subst h3; rfl
      · by_cases h4 : c = '"'
        · subst h4; rfl
        · simp [replaceAllC, escChar, h1, h2, h3, h4]

theorem escHtml_cons (c : Char) (l : List Char) :
    escHtml (c :: l) = escChar c ++ escHtml l := by
  unfold escHtml
  have h1 : replaceAllC '&' (lit "&amp;") (c :: l)
      = (if c = '&' then lit "&amp;" else [c]) ++ replaceAllC '&' (lit "&amp;") l := rfl
  rw [h1, replaceAllC_append, replaceAllC_append, replaceAllC_append,
    escPasses_single]

theorem escChar_not_mem (c : Char) :
    '<' ∉ escChar c ∧ '>' ∉ escChar c ∧ '"' ∉ escChar c := by
  by_cases h1 : c = '&'
  · subst h1; exact ⟨by decide, by decide, by decide⟩
  · by_cases h2 : c = '<'
    · subst h2; exact ⟨by decide, by decide, by decide⟩
    · by_cases h3 : c = '>'
      · subst h3; exact ⟨by decide, by decide, by decide⟩
      · by_cases h4 : c = '"'
        · subst h4; exact ⟨by decide, by decide, by decide⟩
        · have he : escChar c = [c] := by simp [escChar, h1, h2, h3, h4]
          rw [he]
          refine ⟨?_, ?_, ?_⟩ <;> intro hmem <;>
            first
            | exact h2 (List.mem_singleton.mp hmem).symm
            | exact h3 (List.mem_singleton.mp hmem).symm
            | exact h4 (List.mem_singleton.mp hmem).symm

theorem escHtml_not_mem (l : List Char) :
    '<' ∉ escHtml l ∧ '>' ∉ escHtml l ∧ '"' ∉ escHtml l := by
  induction l with
  | nil => exact ⟨by simp [escHtml, replaceAllC], by simp [escHtml, replaceAllC],
      by simp [escHtml, replaceAllC]⟩
  | cons c l ih =>
    rw [escHtml_cons]
    have hc := escChar_not_mem c
    refine ⟨?_, ?_, ?_⟩ <;> simp [List.mem_append] <;>
      exact ⟨by tauto, by tauto⟩

/-- The four replacement strings `_escHtml` produces. -/
def ampEntities : List (List Char) :=
  [lit "&amp;", lit "&lt;", lit "&gt;", lit "&quot;"]

/-- A character list in which every ampersand starts one of the four
`_escHtml` replacement strings: such a list is a concatenation of
non-ampersand characters and whole entities. -/
inductive AmpSafe : List Char → Prop where
  | nil : AmpSafe []
  | plain (c : Char) (l : List Char) : c ≠ '&' → AmpSafe l → AmpSafe (c :: l)
  | ent (e l : List Char) : e ∈ ampEntities → AmpSafe l → AmpSafe (e ++ l)

theorem escHtml_ampSafe (l : List Char) : AmpSafe (escHtml l) := by
  induction l with
  | nil => exact .nil
  | cons c l ih =>
    rw [escHtml_cons]
    by_cases h1 : c = '&'
    · subst h1; exact .ent _ _ (by decide) ih
    · by_cases h2 : c = '<'
      · subst h2; exact .ent _ _ (by decide) ih
      · by_cases h3 : c = '>'
        · subst h3; exact .ent _ _ (by decide) ih
        · by_cases h4 : c = '"'
          · subst h4; exact .ent _ _ (by decide) ih
          · have he : escChar c = [c] := by simp [escChar, h1, h2, h3, h4]
            rw [he]
            exact .plain c _ h1 ih

theorem ampSafe_amp_starts_entity {l : List Char} (h : AmpSafe l) :
    ∀ i, ∀ hi : i < l.length, l.get ⟨i, hi⟩ = '&' →
      ∃ e ∈ ampEntities, ∃ t, l.drop i = e ++ t := by
  induction h with
  | nil =>
    intro i hi
    simp at hi
  | plain c l hne htail ih =>
    intro i hi hget
    cases i with
    | zero => exact absurd (by simpa using hget) hne
    | succ j =>
      have hj : j < l.length := by simpa using hi
      have hg : l.get ⟨j, hj⟩ = '&' := by simpa using hget
      obtain ⟨e, he, t, ht⟩ := ih j hj hg
      exact ⟨e, he, t, by simpa using ht⟩
  | ent e l hmem htail ih =>
    intro i hi hget
    by_cases hlt : i < e.length
    · have hg : e.get ⟨i, hlt⟩ = '&' := by
        have h0 : (e ++ l).get ⟨i, hi⟩ = e.get ⟨i, hlt⟩ := by
          simp only [List.get_eq_getElem]
          exact List.getElem_append_left hlt
        rw [← h0]
        exact hget
      have hmem' : e = lit "&amp;" ∨ e = lit "&lt;" ∨ e = lit "&gt;"
          ∨ e = lit "&quot;" := by
        simpa [ampEntities] using hmem
      have hi0 : i = 0 := by
        rcases hmem' with rfl | rfl | rfl | rfl
        · have hkey : ∀ j : Fin (lit "&amp;").length,
              (lit "&amp;").get j = '&' → j.val = 0 := by decide
          exact hkey ⟨i, hlt⟩ hg
        · have hkey : ∀ j : Fin (lit "&lt;").length,
              (lit "&lt;").get j = '&' → j.val = 0 := by decide
          exact hkey ⟨i, hlt⟩ hg
        · have hkey : ∀ j : Fin (lit "&gt;").length,
              (lit "&gt;").get j = '&' → j.val = 0 := by decide
          exact hkey ⟨i, hlt⟩ hg
        · have hkey : ∀ j : Fin (lit "&quot;").length,
              (lit "&quot;").get j = '&' → j.val = 0 := by decide
          exact hkey ⟨i, hlt⟩ hg
      subst hi0
      exact ⟨e, hmem, l, by simp⟩
    · push_neg at hlt
      have hil : i < e.length + l.length := by
        simpa [List.length_append] using hi
      have hj : i - e.length < l.length := by omega
      have hg : l.get ⟨i - e.length, hj⟩ = '&' := by
        have h0 : (e ++ l).get ⟨i, hi⟩ = l.get ⟨i - e.length, hj⟩ := by
          simp only [List.get_eq_getElem]
          exact List.getElem_append_right hlt
        rw [← h0]
        exact hget
      obtain ⟨e', he', t, ht⟩ := ih _ hj hg
      refine ⟨e', he', t, ?_⟩
      have hsplit : i = e.length + (i - e.length) := by omega
      rw [hsplit, List.drop_append, ht]

/-! ## Shopping-list card: `_renderBody` (source lines 365-403) -/

/-- Row `name` (source line 377):
`product.productName ?? product.name ?? `Product ${productId ?? id}``. -/
def rowName (p : Product) : String :=
  (p.productName <|> p.name).getD ("Product " ++ jsNat (p.productId <|> p.id))

/-- Row `brand` (source line 378): `product.brand ?? ""`. -/
def rowBrand (p : Product) : String := p.brand.getD ""

/-- Row `amount` (source line 379):
`product.textualAmount ?? product.amount ?? ""`. -/
def rowAmount (p : Product) : String := (p.textualAmount <|> p.amount).getD ""

/-- Row `price` (source lines 380-384): a falsy price yields `""`, an
object price yields `` `${full ?? ""} ${currency ?? ""}`.trim() ``, a
truthy scalar prints directly. -/
def rowPrice (p : Product) : String :=
  match p.price with
  | none => ""
  | some (.scalar n) => if n = 0 then "" else toString n
  | some (.obj f c) => String.mk (jsTrim (lit (f.getD "" ++ " " ++ c.getD "")))

/-- One `<li>` row of the item list (source lines 386-399), with the
template literal's verbatim whitespace; the three `${cond ? … : ""}`
fragments test string truthiness (non-emptiness). -/
def rowHtml (p : Product) (idx : Nat) : List Char :=
  lit "\n        <li class=\"item\">\n          <span class=\"item-icon\">🥦</span>\n          <div class=\"item-info\">\n            <div class=\"item-name\">"
  ++ escS (rowName p)
  ++ lit "</div>\n            <div class=\"item-meta\">\n              "
  ++ (if rowBrand p = "" then []
      else lit "<span>" ++ escS (rowBrand p) ++ lit "</span>")
  ++ lit "\n              "
  ++ (if rowAmount p = "" then []
      else lit "<span>" ++ escS (rowAmount p) ++ lit "</span>")
  ++ lit "\n            </div>\n          </div>\n          "
  ++ (if rowPrice p = "" then []
      else lit "<span class=\"item-price\">" ++ escS (rowPrice p) ++ lit "</span>")
  ++ lit "\n          <button class=\"add-btn\" data-idx=\"" ++ lit (toString idx)
  ++ lit "\" title=\"Add to cart\">+</button>\n        </li>\n      "

/-- `RohlikczShoppingListCard._renderBody` (source lines 365-403): the
loading panel, else the error panel when `this._error` is truthy, else
the empty panel when the item list is empty, else the item rows. -/
def renderBody (s : ListState) : List Char :=
  if s.loading then
    lit "<div class=\"state-box\"><div class=\"spinner\"></div><span>Loading shopping list…</span></div>"
  else if truthyStr s.error then
    lit "<div class=\"state-box\"><span class=\"error-icon\">⚠️</span><span>"
    ++ escS (s.error.getD "") ++ lit "</span></div>"
  else if s.items.length = 0 then
    lit "<div class=\"state-box\"><span class=\"empty-icon\">📋</span><span>No items in this shopping list</span></div>"
  else
    lit "<ul class=\"item-list\">"
    ++ (s.items.enum.map fun q => rowHtml q.2 q.1).flatten
    ++ lit "</ul>"

/-- `title` (source line 128):
`config.title || this._listName || "Shopping List"`. -/
def titleOf (s : ListState) : String :=
  jsOrStr (s.config.bind fun c => c.title)
    (jsOrStr (some s.listName) "Shopping List")

/-- The dynamic header fragment of `_render` (source lines 322-334):
escaped title, item-count subtitle with pluralisation, refresh button and
— when items exist — the add-all button disabled while busy. -/
def renderHeader (s : ListState) : List Char :=
  lit "\n      <ha-card>\n        <div class=\"header\">\n          <div class=\"header-left\">\n            <span class=\"header-icon\">🛒</span>\n            <div>\n              <div class=\"title\">"
  ++ escS (titleOf s)
  ++ lit "</div>\n              "
  ++ (if s.items.length > 0 then
        lit "<div class=\"subtitle\">" ++ lit (toString s.items.length)
        ++ lit " item" ++ (if s.items.length ≠ 1 then lit "s" else [])
        ++ lit "</div>"
      else [])
  ++ lit "\n            </div>\n          </div>\n          <div class=\"actions\">\n            <button class=\"btn btn-secondary\" id=\"refresh-btn\" title=\"Refresh\">↻ Refresh</button>\n            "
  ++ (if s.items.length > 0 then
        lit "<button class=\"btn btn-primary\" id=\"add-all-btn\" "
        ++ (if s.addingAll then lit "disabled" else [])
        ++ lit ">"
        ++ (if s.addingAll then lit "Adding…" else lit "Add all to cart")
        ++ lit "</button>"
      else [])
  ++ lit "\n          </div>\n        </div>\n"

/-- One result chip of the batch-add strip (source line 340). -/
def resultChip (r : AddResult) : List Char :=
  lit "<span class=\"result-chip "
  ++ (if r.ok then lit "result-ok" else lit "result-fail")
  ++ lit "\">" ++ escS (jsStr r.name) ++ lit ": "
  ++ (if r.ok then lit "✓ added" else lit "✗ failed") ++ lit "</span>"

/-- The batch-result strip (source lines 338-342). -/
def renderResultsBar (s : ListState) : List Char :=
  if s.addResults.length > 0 then
    lit "\n          <div class=\"results-bar\">\n            "
    ++ (s.addResults.map resultChip).flatten
    ++ lit "\n          </div>\n        "
  else []

/-- The dynamic document fragment `_render` assigns to
`shadowRoot.innerHTML` (source lines 321-346); the constant stylesheet
block (source lines 131-319) carries no interpolation and is omitted as a
content-independent constant. -/
def renderHtml (s : ListState) : List Char :=
  renderHeader s ++ renderBody s ++ renderResultsBar s
  ++ lit "\n      </ha-card>\n\n      <div class=\"toast\"></div>\n    "

/-! ## C2: failed refresh keeps items in state, but renders the error -/

theorem jsOrStr_ne_empty (a : Option String) (b : String) (hb : b ≠ "") :
    jsOrStr a b ≠ "" := by
  unfold jsOrStr
  cases a with
  | none => exact hb
  | some s =>
    by_cases hs : s = ""
    · simpa [hs] using hb
    · simp [hs]

/-- Whether `needle` occurs at the start of `hay`. -/
def startsWithSeg : List Char → List Char → Bool
  | _, [] => true
  | [], _ :: _ => false
  | h :: t, n :: m => h == n && startsWithSeg t m

/-- Whether `needle` occurs contiguously anywhere in `hay`. -/
def containsSeg : List Char → List Char → Bool
  | [], needle => needle.isEmpty
  | h :: t, needle => startsWithSeg (h :: t) needle || containsSeg t needle

/-- Concrete item for the failed-refresh scenario. -/
def milkProduct : Product :=
  { productId := some 10, id := none, productName := some "Milk", name := none,
    brand := none, textualAmount := none, amount := none, price := none }

/-- A list-card state that has already loaded one item. -/
def loadedListState : ListState :=
  { initListState with
      items := [milkProduct], listName := "Groceries", loaded := true,
      config := some { config_entry_id := some "entry1",
                       shopping_list_id := some "list1",
                       title := none, domain := none } }

set_option maxRecDepth 100000 in
/-- C2 counterexample: after a failed refresh of a state holding the item
"Milk", the item collection is intact in state, but the rendered HTML no
longer contains "Milk" anywhere (the body is the error panel alone),
while the render before the failure did contain it — so "the resulting
render shows both the previously loaded items and the error (items
remain visible)" is false. -/
theorem refreshList_failure_render_counterexample :
    (fetchList loadedListState (.error (some "boom"))).final.items = [milkProduct]
    ∧ containsSeg (renderHtml loadedListState) (lit "Milk") = true
    ∧ containsSeg
        (renderHtml (fetchList loadedListState (.error (some "boom"))).final)
        (lit "Milk") = false
    ∧ containsSeg
        (renderHtml (fetchList loadedListState (.error (some "boom"))).final)
        (lit "boom") = true := by
  exact ⟨rfl, by decide, by decide, by decide⟩

/-- C2 amended: a failed `refreshList` on a state with a previously
loaded non-empty item collection leaves the item collection exactly as it
was, stores the error message, clears the loading flag — but the
resulting render shows the error panel *in place of* the item list
(precedence loading > error > empty > populated): the previously loaded
items stay in state yet are not rendered in the body. -/
theorem refreshList_failure_keeps_items_renders_error (s : ListState)
    (e : Option String) (_hne : s.items ≠ []) :
    (fetchList s (.error e)).final.items = s.items
    ∧ (fetchList s (.error e)).final.loading = false
    ∧ (fetchList s (.error e)).final.error =
        some (jsOrStr e "Failed to load shopping list")
    ∧ renderBody (fetchList s (.error e)).final =
        lit "<div class=\"state-box\"><span class=\"error-icon\">⚠️</span><span>"
        ++ escS (jsOrStr e "Failed to load shopping list")
        ++ lit "</span></div>" := by
  refine ⟨rfl, rfl, rfl, ?_⟩
  have hmsg : jsOrStr e "Failed to load shopping list" ≠ "" :=
    jsOrStr_ne_empty e _ (by decide)
  simp [fetchList, renderBody, truthyStr, hmsg]

/-- C2 witness: concrete instance of
`refreshList_failure_keeps_items_renders_error` at the loaded state. -/
theorem refreshList_failure_keeps_items_renders_error_witness :
    (fetchList loadedListState (.error (some "boom"))).final.items
        = [milkProduct]
    ∧ renderBody (fetchList loadedListState (.error (some "boom"))).final =
        lit "<div class=\"state-box\"><span class=\"error-icon\">⚠️</span><span>"
        ++ escS "boom" ++ lit "</span></div>" := by
  have h := refreshList_failure_keeps_items_renders_error loadedListState
    (some "boom") (by simp [loadedListState])
  exact ⟨h.1, h.2.2.2⟩

/-! ## C10: content scrubbing

To state that backend-supplied text reaches the markup only through
`_escHtml`, we compare every render against the render of a *scrubbed*
state in which each backend text character is replaced (whitespace kept,
so that every string/trim truthiness test decides the same way) — the
number of `<`, `>` and `"` in the output must not change. -/

/-- Replace a content character, keeping whitespace (so JS truthiness and
`trim` behave identically). -/
def scrubChar (c : Char) : Char := if isJsWs c then c else 'x'

/-- Scrub every character of a backend string. -/
def scrubStr (s : String) : String := String.mk (s.toList.map scrubChar)

/-- Scrub an optional backend string. -/
def scrubOpt (o : Option String) : Option String := o.map scrubStr

/-- Scrub the textual parts of a price. -/
def scrubPrice : Option PriceVal → Option PriceVal
  | some (.obj f c) => some (.obj (scrubOpt f) (scrubOpt c))
  | x => x

/-- Scrub every backend text field of a product. -/
def scrubProduct (p : Product) : Product :=
  { p with productName := scrubOpt p.productName, name := scrubOpt p.name,
           brand := scrubOpt p.brand, textualAmount := scrubOpt p.textualAmount,
           amount := scrubOpt p.amount, price := scrubPrice p.price }

/-- Scrub the name carried by a batch-add result. -/
def scrubResult (r : AddResult) : AddResult :=
  { r with name := scrubOpt r.name, error := scrubOpt r.error }

/-- Scrub the display title of the configuration. -/
def scrubConfig (c : ListConfig) : ListConfig :=
  { c with title := scrubOpt c.title }

/-- Scrub every backend-supplied text in a list-card state. -/
def scrubState (s : ListState) : ListState :=
  { s with items := s.items.map scrubProduct,
           listName := scrubStr s.listName,
           error := scrubOpt s.error,
           addResults := s.addResults.map scrubResult,
           config := s.config.map scrubConfig }

theorem scrubChar_ws (c : Char) : isJsWs (scrubChar c) = isJsWs c := by
  unfold scrubChar
  by_cases h : isJsWs c
  · simp [h]
  · simp [h]
    decide

theorem dropWhile_map_scrub (l : List Char) :
    (l.map scrubChar).dropWhile isJsWs = (l.dropWhile isJsWs).map scrubChar := by
  induction l with
  | nil => rfl
  | cons c l ih =>
    simp only [List.map_cons, List.dropWhile_cons, scrubChar_ws]
    by_cases h : isJsWs c <;> simp [h, ih]

theorem jsTrim_map_scrub (l : List Char) :
    jsTrim (l.map scrubChar) = (jsTrim l).map scrubChar := by
  unfold jsTrim
  rw [dropWhile_map_scrub, ← List.map_reverse, dropWhile_map_scrub,
    ← List.map_reverse]

theorem scrubStr_empty_iff (s : String) : scrubStr s = "" ↔ s = "" := by
  constructor
  · intro h
    have hl : s.toList.map scrubChar = [] := congrArg String.toList h
    have : s.toList = [] := List.map_eq_nil_iff.mp hl
    exact String.ext this
  · intro h
    subst h
    rfl

theorem truthy_scrubOpt (e : Option String) :
    truthyStr (scrubOpt e) = truthyStr e := by
  cases e with
  | none => rfl
  | some s =>
    by_cases hs : s = ""
    · simp [truthyStr, scrubOpt, hs, scrubStr_empty_iff]
    · have hns : scrubStr s ≠ "" := fun hc => hs ((scrubStr_empty_iff s).mp hc)
      have h1 : (scrubStr s != "") = true := bne_iff_ne.mpr hns
      have h2 : (s != "") = true := bne_iff_ne.mpr hs
      simp [truthyStr, scrubOpt, h1, h2]

theorem rowBrand_scrub (p : Product) :
    rowBrand (scrubProduct p) = scrubStr (rowBrand p) := by
  cases hb : p.brand
  · simp [rowBrand, scrubProduct, scrubOpt, hb]
    rfl
  · simp [rowBrand, scrubProduct, scrubOpt, hb]

theorem rowAmount_scrub (p : Product) :
    rowAmount (scrubProduct p) = scrubStr (rowAmount p) := by
  cases ht : p.textualAmount <;> cases ha : p.amount
  · simp only [rowAmount, scrubProduct, scrubOpt, ht, ha, Option.orElse]
    rfl
  · simp [rowAmount, scrubProduct, scrubOpt, ht, ha, Option.orElse]
  · simp [rowAmount, scrubProduct, scrubOpt, ht, ha, Option.orElse]
  · simp [rowAmount, scrubProduct, scrubOpt, ht, ha, Option.orElse]

theorem strMk_empty_iff (l : List Char) : String.mk l = "" ↔ l = [] := by
  constructor
  · intro h
    simpa using congrArg String.toList h
  · intro h
    subst h
    rfl

theorem getD_scrubOpt (o : Option String) :
    (scrubOpt o).getD "" = scrubStr (o.getD "") := by
  cases o
  · simp [scrubOpt]
    rfl
  · simp [scrubOpt]

theorem lit_scrub_append (a b : String) :
    lit (scrubStr a ++ " " ++ scrubStr b)
      = (lit (a ++ " " ++ b)).map scrubChar := by
  simp [lit, scrubStr, String.toList]
  rfl

theorem rowPrice_scrub_empty_iff (p : Product) :
    (rowPrice (scrubProduct p) = "") ↔ (rowPrice p = "") := by
  cases hp : p.price with
  | none => simp [rowPrice, scrubProduct, scrubPrice, hp]
  | some pv =>
    cases pv with
    | scalar n => simp [rowPrice, scrubProduct, scrubPrice, hp]
    | obj f c =>
      have h1 : rowPrice (scrubProduct p)
          = String.mk ((jsTrim (lit (f.getD "" ++ " " ++ c.getD ""))).map scrubChar) := by
        simp only [rowPrice, scrubProduct, scrubPrice, hp, getD_scrubOpt,
          lit_scrub_append, jsTrim_map_scrub]
      have h2 : rowPrice p
          = String.mk (jsTrim (lit (f.getD "" ++ " " ++ c.getD ""))) := by
        simp only [rowPrice, hp]
      rw [h1, h2, strMk_empty_iff, strMk_empty_iff, List.map_eq_nil_iff]

theorem count_escS_zero (ch : Char) (hch : ch = '<' ∨ ch = '>' ∨ ch = '"')
    (s : String) : (escS s).count ch = 0 := by
  rcases hch with rfl | rfl | rfl
  · exact List.count_eq_zero.mpr (escHtml_not_mem s.toList).1
  · exact List.count_eq_zero.mpr (escHtml_not_mem s.toList).2.1
  · exact List.count_eq_zero.mpr (escHtml_not_mem s.toList).2.2

theorem rowHtml_count_scrub (ch : Char)
    (hEsc : ∀ x : String, (escS x).count ch = 0) (p : Product) (idx : Nat) :
    (rowHtml (scrubProduct p) idx).count ch = (rowHtml p idx).count ch := by
  unfold rowHtml
  by_cases hb : rowBrand p = "" <;> by_cases ha : rowAmount p = "" <;>
    by_cases hpr : rowPrice p = "" <;>
      simp [rowBrand_scrub, rowAmount_scrub, rowPrice_scrub_empty_iff,
        scrubStr_empty_iff, hb, ha, hpr, List.count_append, hEsc]

theorem rows_count_scrub (ch : Char)
    (hEsc : ∀ x : String, (escS x).count ch = 0) (items : List Product) (k : Nat) :
    ((((items.map scrubProduct).enumFrom k).map fun q => rowHtml q.2 q.1).flatten).count ch
      = (((items.enumFrom k).map fun q => rowHtml q.2 q.1).flatten).count ch := by
  induction items generalizing k with
  | nil => rfl
  | cons p ps ih =>
    simp only [List.map_cons, List.enumFrom_cons, List.flatten_cons,
      List.count_append]
    rw [rowHtml_count_scrub ch hEsc, ih]

theorem renderBody_count_scrub (ch : Char)
    (hEsc : ∀ x : String, (escS x).count ch = 0) (s : ListState) :
    (renderBody (scrubState s)).count ch = (renderBody s).count ch := by
  unfold renderBody
  by_cases hl : s.loading
  · simp [scrubState, hl]
  · by_cases he : truthyStr s.error
    · simp [scrubState, hl, truthy_scrubOpt, he, List.count_append, hEsc]
    · by_cases hz : s.items.length = 0
      · simp [scrubState, hl, truthy_scrubOpt, he, hz]
      · simp [scrubState, hl, truthy_scrubOpt, he, hz, List.count_append,
          List.enum, rows_count_scrub ch hEsc]

theorem renderHeader_count_scrub (ch : Char)
    (hEsc : ∀ x : String, (escS x).count ch = 0) (s : ListState) :
    (renderHeader (scrubState s)).count ch = (renderHeader s).count ch := by
  unfold renderHeader
  by_cases hn : s.items.length > 0 <;> by_cases h1 : s.items.length ≠ 1 <;>
    by_cases hadd : s.addingAll <;>
      simp [scrubState, List.length_map, hn, h1, hadd, List.count_append, hEsc]

theorem resultChip_count_scrub (ch : Char)
    (hEsc : ∀ x : String, (escS x).count ch = 0) (r : AddResult) :
    (resultChip (scrubResult r)).count ch = (resultChip r).count ch := by
  unfold resultChip
  by_cases hok : r.ok <;> simp [scrubResult, hok, List.count_append, hEsc]

theorem chips_count_scrub (ch : Char)
    (hEsc : ∀ x : String, (escS x).count ch = 0) (rs : List AddResult) :
    (rs.map (resultChip ∘ scrubResult)).flatten.count ch
      = (rs.map resultChip).flatten.count ch := by
  induction rs with
  | nil => rfl
  | cons r rs ih =>
    simp only [List.map_cons, Function.comp_apply, List.flatten_cons,
      List.count_append]
    rw [resultChip_count_scrub ch hEsc, ih]

theorem renderResultsBar_count_scrub (ch : Char)
    (hEsc : ∀ x : String, (escS x).count ch = 0) (s : ListState) :
    (renderResultsBar (scrubState s)).count ch = (renderResultsBar s).count ch := by
  unfold renderResultsBar
  by_cases hr : s.addResults.length > 0 <;>
    simp [scrubState, List.length_map, hr, List.count_append,
      chips_count_scrub ch hEsc]

theorem renderHtml_count_scrub (ch : Char)
    (hEsc : ∀ x : String, (escS x).count ch = 0) (s : ListState) :
    (renderHtml (scrubState s)).count ch = (renderHtml s).count ch := by
  unfold renderHtml
  simp only [List.count_append, renderHeader_count_scrub ch hEsc,
    renderBody_count_scrub ch hEsc, renderResultsBar_count_scrub ch hEsc]

/-- C10: `_escHtml` output never contains `<`, `>` or `"`; every `&` in
its output starts one of the four substitutions `&amp;`, `&lt;`, `&gt;`,
`&quot;` (equivalently, the output is a concatenation of plain
non-ampersand characters and whole entities); and all backend-supplied
text the list card renders — title, item names, brands, amounts, prices,
error messages, result-log names — passes through `_escHtml` before being
interpolated: scrubbing every content character of that text leaves the
`<`, `>` and `"` counts of the rendered HTML unchanged, so backend text
cannot contribute markup. -/
theorem escHtml_escapes_and_render_safe :
    (∀ s : String, '<' ∉ escS s ∧ '>' ∉ escS s ∧ '"' ∉ escS s)
    ∧ (∀ s : String, AmpSafe (escS s))
    ∧ (∀ (s : String) (i : Nat) (hi : i < (escS s).length),
        (escS s).get ⟨i, hi⟩ = '&' →
          ∃ e ∈ ampEntities, ∃ t, (escS s).drop i = e ++ t)
    ∧ (∀ st : ListState,
        (renderHtml (scrubState st)).count '<' = (renderHtml st).count '<'
        ∧ (renderHtml (scrubState st)).count '>' = (renderHtml st).count '>'
        ∧ (renderHtml (scrubState st)).count '"' = (renderHtml st).count '"') := by
  refine ⟨fun s => escHtml_not_mem s.toList, fun s => escHtml_ampSafe s.toList,
    fun s i hi hg => ampSafe_amp_starts_entity (escHtml_ampSafe s.toList) i hi hg,
    fun st => ⟨renderHtml_count_scrub '<' (count_escS_zero '<' (Or.inl rfl)) st,
      renderHtml_count_scrub '>' (count_escS_zero '>' (Or.inr (Or.inl rfl))) st,
      renderHtml_count_scrub '"' (count_escS_zero '"' (Or.inr (Or.inr rfl))) st⟩⟩

/-- C10 witness: concrete instance of `escHtml_escapes_and_render_safe` —
the ampersand at index 1 of `escS "a&b"` (which is `"a&amp;b"`) starts an
entity. -/
theorem escHtml_escapes_and_render_safe_witness :
    ∃ e ∈ ampEntities, ∃ t, (escS "a&b").drop 1 = e ++ t := by
  exact escHtml_escapes_and_render_safe.2.2.1 "a&b" 1 (by decide) (by decide)
